import Mathlib

/-!
Shallow embedding of the IoT Device Risk Management System (src/IoT.py)
and proofs of the specified properties of its risk-scoring engine,
authorization model and report aggregation.
-/

namespace IoTRisk

/-- Embeds `DEVICE_RISK_LEVELS` (IoT.py lines 8-13): a dict from device type
to a dict from firmware version to a base risk integer, modelled as nested
association lists. -/
def DEVICE_RISK_LEVELS : List (String × List (String × Int)) :=
  [("smart_light", [("1.0", 5), ("1.1", 3), ("1.2", 2)]),
   ("thermostat", [("1.0", 4), ("1.1", 3), ("1.2", 1)]),
   ("security_camera", [("1.0", 6), ("1.1", 4), ("1.2", 3)]),
   ("door_lock", [("1.0", 7), ("1.1", 5), ("1.2", 3)])]

/-- Embeds the base-risk lookup of IoT.py line 52:
`DEVICE_RISK_LEVELS.get(self.device_type, {}).get(self.firmware_version, 0)`.
A missing device type yields the empty inner dict, and a missing firmware
version yields the default 0. -/
def baseRisk (device_type firmware_version : String) : Int :=
  (((DEVICE_RISK_LEVELS.lookup device_type).getD []).lookup firmware_version).getD 0

/-- The table entry for a (type, version) pair: `some r` when the pair is
present in `DEVICE_RISK_LEVELS` with value `r`, `none` when absent. -/
def riskEntry (device_type firmware_version : String) : Option Int :=
  (DEVICE_RISK_LEVELS.lookup device_type).bind (fun m => m.lookup firmware_version)

/-- Embeds the `DeviceStatus` enum (IoT.py lines 16-19). -/
inductive DeviceStatus where
  | ACTIVE
  | INACTIVE
  | UNDER_MAINTENANCE
deriving DecidableEq

/-- The `.value` string of each `DeviceStatus` member. -/
def DeviceStatus.value : DeviceStatus → String
  | .ACTIVE => "active"
  | .INACTIVE => "inactive"
  | .UNDER_MAINTENANCE => "under maintenance"

/-- Embeds the `Role` enum (IoT.py lines 23-26). -/
inductive Role where
  | VIEWER
  | MANAGER
  | ADMIN
deriving DecidableEq

/-- Embeds the `User` class (IoT.py lines 30-37). -/
structure User where
  username : String
  role : Role
  is_active : Bool
deriving DecidableEq

/-- Embeds `IoTDevice.calculate_risk` (IoT.py lines 50-62) with the two
impure ingredients made explicit parameters: `firmware_age_days` is the
value of `(datetime.now() - self.last_updated).days` observed during the
call, and `residual` is the value returned by `random.randint(0, 2)`. -/
def calculate_risk (device_type firmware_version : String)
    (firmware_age_days : Int) (residual : Int) : Int :=
  let base_risk := baseRisk device_type firmware_version
  let base_risk := if firmware_age_days > 180 then base_risk + 2 else base_risk
  base_risk + residual

/-- Embeds the `IoTDevice` class state (IoT.py lines 41-48): `last_updated`
is the creation timestamp (in days), and `risk_level` is the integer stored
once by `__init__`. -/
structure IoTDevice where
  device_id : String
  device_type : String
  firmware_version : String
  status : DeviceStatus
  last_updated : Int
  risk_level : Int
deriving DecidableEq

/-- Embeds `IoTDevice.__init__` (IoT.py lines 42-48): stores the creation
timestamp as `last_updated` and computes `risk_level` exactly once via
`calculate_risk`. `firmware_age_days` is the whole-day gap the risk
calculation observes between its own `datetime.now()` call and
`last_updated` (0 in normal synchronous construction); `residual` is the
draw of `random.randint(0, 2)`. -/
def IoTDevice.init (device_id device_type firmware_version : String)
    (status : DeviceStatus) (created firmware_age_days residual : Int) : IoTDevice :=
  { device_id := device_id
    device_type := device_type
    firmware_version := firmware_version
    status := status
    last_updated := created
    risk_level := calculate_risk device_type firmware_version firmware_age_days residual }

/-- Models a later Python attribute assignment `device.status = s`; no other
field (in particular not `risk_level`) is recomputed. -/
def IoTDevice.setStatus (d : IoTDevice) (s : DeviceStatus) : IoTDevice :=
  { d with status := s }

/-- Embeds `IoTDevice.__str__` (IoT.py lines 64-65). -/
def IoTDevice.render (d : IoTDevice) : String :=
  "Device " ++ d.device_id ++ ": " ++ d.device_type ++ " v" ++ d.firmware_version ++
    " - Status: " ++ d.status.value ++ " - Risk Level: " ++ toString d.risk_level

/-- Embeds the `Recommendation` class state (IoT.py lines 69-72). -/
structure Recommendation where
  description : String
  approved : Bool
deriving DecidableEq

/-- Embeds `Recommendation(description=text)` with the default
`approved=False` (IoT.py lines 70-72 and 194). -/
def Recommendation.new (description : String) : Recommendation :=
  ⟨description, false⟩

/-- Embeds `Recommendation.approve` (IoT.py lines 74-75). -/
def Recommendation.approve (r : Recommendation) : Recommendation :=
  { r with approved := true }

/-- Embeds `Recommendation.reject` (IoT.py lines 77-78). -/
def Recommendation.reject (r : Recommendation) : Recommendation :=
  { r with approved := false }

/-- Embeds `Recommendation.__str__` (IoT.py lines 80-81). -/
def Recommendation.render (r : Recommendation) : String :=
  "Recommendation: " ++ r.description ++ " - " ++
    (if r.approved then "Approved" else "Pending")

/-- Embeds the `DeviceReport` class state (IoT.py lines 85-88). -/
structure DeviceReport where
  devices : List IoTDevice
  recommendations : List Recommendation
deriving DecidableEq

/-- Embeds `DeviceReport.add_device` (IoT.py lines 90-91): list append. -/
def add_device (rep : DeviceReport) (d : IoTDevice) : DeviceReport :=
  { rep with devices := rep.devices ++ [d] }

/-- Embeds `DeviceReport.generate_report` (IoT.py lines 93-95). -/
def generate_report (rep : DeviceReport) : String :=
  String.intercalate "\n" (rep.devices.map IoTDevice.render)

/-- Embeds `DeviceReport.add_recommendation` (IoT.py lines 97-98). -/
def add_recommendation (rep : DeviceReport) (r : Recommendation) : DeviceReport :=
  { rep with recommendations := rep.recommendations ++ [r] }

/-- Embeds `DeviceReport.view_recommendations` (IoT.py lines 100-101). -/
def view_recommendations (rep : DeviceReport) : String :=
  String.intercalate "\n" (rep.recommendations.map Recommendation.render)

/-- The six counts computed by `DeviceReport.generate_statistics`
(IoT.py lines 103-111), before string formatting. -/
structure Statistics where
  total_devices : Nat
  active_devices : Nat
  inactive_devices : Nat
  maintenance_devices : Nat
  high_risk_devices : Nat
  low_risk_devices : Nat
deriving DecidableEq

/-- Embeds the count computations of `DeviceReport.generate_statistics`
(IoT.py lines 103-111): length of the device list and of its filters by
each status and by the risk threshold 5. -/
def generate_statistics (rep : DeviceReport) : Statistics :=
  { total_devices := rep.devices.length
    active_devices := (rep.devices.filter (fun d => d.status == DeviceStatus.ACTIVE)).length
    inactive_devices := (rep.devices.filter (fun d => d.status == DeviceStatus.INACTIVE)).length
    maintenance_devices :=
      (rep.devices.filter (fun d => d.status == DeviceStatus.UNDER_MAINTENANCE)).length
    high_risk_devices := (rep.devices.filter (fun d => decide (d.risk_level ≥ 5))).length
    low_risk_devices := (rep.devices.filter (fun d => decide (d.risk_level < 5))).length }

/-- Embeds the string formatting of `DeviceReport.generate_statistics`
(IoT.py lines 113-118) over the computed counts. -/
def generate_statistics_text (rep : DeviceReport) : String :=
  let s := generate_statistics rep
  "Total Devices: " ++ toString s.total_devices ++ "\n" ++
    "Active Devices: " ++ toString s.active_devices ++ "\n" ++
    "Inactive Devices: " ++ toString s.inactive_devices ++ "\n" ++
    "Under Maintenance: " ++ toString s.maintenance_devices ++ "\n" ++
    "High Risk Devices (Risk Level >= 5): " ++ toString s.high_risk_devices ++ "\n" ++
    "Low Risk Devices (Risk Level < 5): " ++ toString s.low_risk_devices ++ "\n"

/-- Embeds `AccessControl.check_access` (IoT.py lines 129-143). The first
component is the returned boolean; the second collects the lines printed
during the call (the inactive-user denial notice of line 132). -/
def check_access (user : User) (action : String) : Bool × List String :=
  if user.is_active = false then
    (false, ["Access Denied: User " ++ user.username ++ " is inactive."])
  else if action = "view_report" then
    ([Role.VIEWER, Role.MANAGER, Role.ADMIN].contains user.role, [])
  else if action = "modify_report" then
    ([Role.MANAGER, Role.ADMIN].contains user.role, [])
  else if action = "add_device" then
    (user.role == Role.ADMIN, [])
  else if action = "approve_recommendation" then
    (user.role == Role.MANAGER, [])
  else
    (false, [])

/-- Embeds the front-end call sequence of IoT.py lines 178-180:
`user = access_control.users.get(username)` followed by
`check_access(user, action)`. When the dictionary lookup misses, `user` is
`None` and `check_access` evaluates `not user.is_active` on `None`, which
raises `AttributeError`; the raised exception is modelled as
`Except.error`. -/
def check_access_lookup (users : List (String × User)) (username action : String) :
    Except String (Bool × List String) :=
  match users.lookup username with
  | none => Except.error "AttributeError"
  | some u => Except.ok (check_access u action)

/-- Approves the recommendation at 0-based index `i`, leaving every other
list element untouched (models the in-place
`report.recommendations[index].approve()` of IoT.py line 208). -/
def approveNth (recs : List Recommendation) (i : Nat) : List Recommendation :=
  match recs, i with
  | [], _ => []
  | r :: rs, 0 => Recommendation.approve r :: rs
  | r :: rs, Nat.succ j => r :: approveNth rs j

/-- Embeds the approval step of the `__main__` loop (IoT.py lines 206-211):
the 1-based input `i` is translated to a 0-based `index`; in range, the
recommendation there is approved and "Recommendation approved." is printed;
out of range, the list is left untouched and "Invalid recommendation
index." is printed. -/
def approve_index (recs : List Recommendation) (i : Int) :
    List Recommendation × String :=
  let index := i - 1
  if 0 ≤ index ∧ index < recs.length then
    (approveNth recs index.toNat, "Recommendation approved.")
  else
    (recs, "Invalid recommendation index.")

/-! Helper lemmas shared by the claim theorems. -/

/-- A successful association-list lookup returns one of the stored values. -/
lemma lookup_mem_snd {α β : Type} [BEq α] {a : α} {l : List (α × β)} {b : β}
    (h : l.lookup a = some b) : b ∈ l.map Prod.snd := by
  induction l with
  | nil => simp [List.lookup] at h
  | cons p ps ih =>
    obtain ⟨k, c⟩ := p
    simp [List.lookup] at h
    by_cases hk : a == k
    · simp [hk] at h; simp [h]
    · simp [hk] at h; simp [ih h]

/-- Every base risk the table can produce is non-negative. -/
lemma baseRisk_nonneg (t v : String) : 0 ≤ baseRisk t v := by
  unfold baseRisk
  cases h1 : DEVICE_RISK_LEVELS.lookup t with
  | none => simp
  | some m =>
    simp only [Option.getD_some]
    cases h2 : m.lookup v with
    | none => simp
    | some r =>
      simp only [Option.getD_some]
      have hm := lookup_mem_snd h1
      have hr := lookup_mem_snd h2
      simp [DEVICE_RISK_LEVELS] at hm
      rcases hm with h | h | h | h <;> subst h <;> simp at hr <;> omega

/-- The status filters partition the device list. -/
lemma filter_status_partition (l : List IoTDevice) :
    (l.filter (fun d => d.status == DeviceStatus.ACTIVE)).length +
      (l.filter (fun d => d.status == DeviceStatus.INACTIVE)).length +
      (l.filter (fun d => d.status == DeviceStatus.UNDER_MAINTENANCE)).length
      = l.length := by
  induction l with
  | nil => rfl
  | cons d ds ih =>
    cases h : d.status <;> simp [List.filter_cons, h] at ih ⊢ <;> omega

/-- The risk-threshold filters partition the device list. -/
lemma filter_risk_partition (l : List IoTDevice) :
    (l.filter (fun d => decide (d.risk_level ≥ 5))).length +
      (l.filter (fun d => decide (d.risk_level < 5))).length = l.length := by
  induction l with
  | nil => rfl
  | cons d ds ih =>
    by_cases h : d.risk_level ≥ 5
    · have h2 : ¬ d.risk_level < 5 := by omega
      simp [List.filter_cons, h, h2] at ih ⊢; omega
    · have h2 : d.risk_level < 5 := by omega
      simp [List.filter_cons, h, h2] at ih ⊢; omega

/-- Approving at the index of a freshly appended element approves exactly it. -/
lemma approveNth_append (l : List Recommendation) (x : Recommendation) :
    approveNth (l ++ [x]) l.length = l ++ [x.approve] := by
  induction l with
  | nil => rfl
  | cons r rs ih => simp [approveNth, ih]

/-- Element access at the boundary of a middle singleton. -/
lemma get_append_middle {α : Type} (l l2 : List α) (x : α) :
    ((l ++ [x]) ++ l2)[l.length]? = some x := by
  induction l with
  | nil => simp
  | cons a as ih => simpa using ih

/-! Claim theorems. -/

/-- C1: for every active user, check_access follows the fixed
action-to-allowed-roles table with no role hierarchy: an active Admin is
allowed "add_device" but denied "approve_recommendation"; an active Manager
is allowed both "approve_recommendation" and "modify_report"; "view_report"
is allowed for Viewer, Manager and Admin; and any action string outside the
four listed actions is denied for every active user. -/
theorem check_access_role_table (u : User) (hu : u.is_active = true) :
    (u.role = Role.ADMIN →
       (check_access u "add_device").1 = true ∧
       (check_access u "approve_recommendation").1 = false) ∧
    (u.role = Role.MANAGER →
       (check_access u "approve_recommendation").1 = true ∧
       (check_access u "modify_report").1 = true) ∧
    ((u.role = Role.VIEWER ∨ u.role = Role.MANAGER ∨ u.role = Role.ADMIN) →
       (check_access u "view_report").1 = true) ∧
    (∀ a : String, a ≠ "view_report" → a ≠ "modify_report" → a ≠ "add_device" →
       a ≠ "approve_recommendation" → (check_access u a).1 = false) := by
  refine ⟨?_, ?_, ?_, ?_⟩
  · intro h; constructor <;> simp [check_access, hu, h]
  · intro h; constructor <;> simp [check_access, hu, h]
  · intro h; rcases h with h | h | h <;> simp [check_access, hu, h]
  · intro a h1 h2 h3 h4; simp [check_access, hu, h1, h2, h3, h4]

/-- Witness for C1 at concrete users and a concrete unlisted action. -/
theorem check_access_role_table_witness :
    (check_access ⟨"alice", Role.ADMIN, true⟩ "add_device").1 = true ∧
    (check_access ⟨"alice", Role.ADMIN, true⟩ "approve_recommendation").1 = false ∧
    (check_access ⟨"mona", Role.MANAGER, true⟩ "approve_recommendation").1 = true ∧
    (check_access ⟨"vera", Role.VIEWER, true⟩ "view_report").1 = true ∧
    (check_access ⟨"alice", Role.ADMIN, true⟩ "delete_device").1 = false := by
  have ha := check_access_role_table ⟨"alice", Role.ADMIN, true⟩ rfl
  have hm := check_access_role_table ⟨"mona", Role.MANAGER, true⟩ rfl
  have hv := check_access_role_table ⟨"vera", Role.VIEWER, true⟩ rfl
  exact ⟨(ha.1 rfl).1, (ha.1 rfl).2, (hm.2.1 rfl).1, hv.2.2.1 (Or.inl rfl),
    ha.2.2.2 "delete_device" (by decide) (by decide) (by decide) (by decide)⟩

/-- C2, counterexample: with an empty user registry, the lookup-then-check
sequence of the front end does not yield the boolean false; it raises (the
model returns `Except.error`), so the claim that check_access evaluates to
deny for an absent user fails on the code. -/
theorem check_access_lookup_none_cex :
    check_access_lookup [] "bob" "view_report" = Except.error "AttributeError" ∧
    (check_access_lookup [] "bob" "view_report").isOk = false := by
  exact ⟨rfl, rfl⟩

/-- C2, amended: for every user registry, username and action, when the
registry lookup finds no registered user, the lookup-then-check sequence
raises an AttributeError (check_access dereferences None) instead of
returning false. -/
theorem check_access_lookup_absent (users : List (String × User))
    (username action : String) (h : users.lookup username = none) :
    check_access_lookup users username action = Except.error "AttributeError" := by
  simp [check_access_lookup, h]

/-- Witness for the amended C2 at the empty registry. -/
theorem check_access_lookup_absent_witness :
    check_access_lookup [] "carol" "add_device" = Except.error "AttributeError" :=
  check_access_lookup_absent [] "carol" "add_device" rfl

/-- C3: for every user whose is_active flag is false and for every action
string, check_access returns false together with the denial notice printed
on line 132, uniformly in the action and the role - the role table is never
consulted. -/
theorem check_access_inactive_denied (u : User) (h : u.is_active = false)
    (action : String) :
    check_access u action =
      (false, ["Access Denied: User " ++ u.username ++ " is inactive."]) := by
  simp [check_access, h]

/-- Witness for C3: an inactive Manager is denied "view_report" with the
notice, even though an active Manager would be allowed. -/
theorem check_access_inactive_denied_witness :
    check_access ⟨"mona", Role.MANAGER, false⟩ "view_report" =
      (false, ["Access Denied: User " ++ "mona" ++ " is inactive."]) :=
  check_access_inactive_denied ⟨"mona", Role.MANAGER, false⟩ rfl "view_report"

/-- C4: risk_level is fixed at construction: whenever the age computation
sees fewer than 181 elapsed days, the stored risk_level is the base-table
risk plus only the random residual, and a later status change never
recomputes the stored risk_level. -/
theorem risk_fixed_at_construction :
    (∀ (id ty fw : String) (st : DeviceStatus) (created age res : Int),
       age ≤ 180 →
       (IoTDevice.init id ty fw st created age res).risk_level
         = baseRisk ty fw + res) ∧
    (∀ (d : IoTDevice) (s : DeviceStatus),
       (d.setStatus s).risk_level = d.risk_level) := by
  constructor
  · intro id ty fw st created age res h
    simp [IoTDevice.init, calculate_risk, if_neg (by omega : ¬ age > 180)]
  · intro d s; rfl

/-- Witness for C4 at a concrete synchronous construction (age 0). -/
theorem risk_fixed_at_construction_witness :
    (IoTDevice.init "d1" "smart_light" "1.1" DeviceStatus.ACTIVE 0 0 1).risk_level
      = baseRisk "smart_light" "1.1" + 1 :=
  risk_fixed_at_construction.1 "d1" "smart_light" "1.1" DeviceStatus.ACTIVE 0 0 1
    (by decide)

/-- C5: for every (deviceType, firmwareVersion) pair present in the static
risk table, baseRisk returns exactly the configured integer, and for every
absent pair it returns 0. -/
theorem baseRisk_table_spec :
    (∀ (t v : String) (r : Int), riskEntry t v = some r → baseRisk t v = r) ∧
    (∀ t v : String, riskEntry t v = none → baseRisk t v = 0) := by
  constructor
  · intro t v r h
    unfold riskEntry at h
    cases h1 : DEVICE_RISK_LEVELS.lookup t with
    | none => rw [h1] at h; simp at h
    | some m =>
      rw [h1] at h
      have h2 : m.lookup v = some r := h
      simp [baseRisk, h1, h2]
  · intro t v h
    unfold riskEntry at h
    cases h1 : DEVICE_RISK_LEVELS.lookup t with
    | none => simp [baseRisk, h1]
    | some m =>
      rw [h1] at h
      have h2 : m.lookup v = none := h
      simp [baseRisk, h1, h2]

/-- Witness for C5 at a present pair and at an absent device type. -/
theorem baseRisk_table_spec_witness :
    baseRisk "smart_light" "1.0" = 5 ∧ baseRisk "drone" "1.0" = 0 :=
  ⟨baseRisk_table_spec.1 "smart_light" "1.0" 5 (by decide),
   baseRisk_table_spec.2 "drone" "1.0" (by decide)⟩

/-- C6: with the random residual fixed to 0, the computed score equals
baseRisk plus 2 when the whole-day firmware age exceeds 180 days and plus 0
otherwise; in particular for smart_light/1.1 (table value 3), residual 0 and
age at most 180 days, the score is 3. -/
theorem score_formula :
    (∀ (t v : String) (age : Int),
       calculate_risk t v age 0 = baseRisk t v + (if age > 180 then 2 else 0)) ∧
    (∀ age : Int, age ≤ 180 → calculate_risk "smart_light" "1.1" age 0 = 3) := by
  constructor
  · intro t v age
    simp only [calculate_risk]
    split <;> omega
  · intro age h
    simp only [calculate_risk, if_neg (by omega : ¬ age > 180)]
    decide

/-- Witness for C6 at age 0. -/
theorem score_formula_witness :
    calculate_risk "smart_light" "1.1" 0 0 = 3 :=
  score_formula.2 0 (by decide)

/-- C7: generate_statistics partitions correctly: the total equals the
length of the device list, the three status counts sum to the total, the
high-risk count is the number of devices with risk_level at least 5, the
low-risk count is the number with risk_level below 5, these two sum to the
total, and for 5 devices with risk levels [5,4,6,2,5] the high-risk count
is 3 and the low-risk count is 2. -/
theorem statistics_partition :
    (∀ rep : DeviceReport,
       (generate_statistics rep).total_devices = rep.devices.length ∧
       (generate_statistics rep).active_devices +
           (generate_statistics rep).inactive_devices +
           (generate_statistics rep).maintenance_devices
         = (generate_statistics rep).total_devices ∧
       (generate_statistics rep).high_risk_devices
         = (rep.devices.filter (fun d => decide (d.risk_level ≥ 5))).length ∧
       (generate_statistics rep).low_risk_devices
         = (rep.devices.filter (fun d => decide (d.risk_level < 5))).length ∧
       (generate_statistics rep).high_risk_devices +
           (generate_statistics rep).low_risk_devices
         = (generate_statistics rep).total_devices) ∧
    (∀ (d1 d2 d3 d4 d5 : IoTDevice) (recs : List Recommendation),
       d1.risk_level = 5 → d2.risk_level = 4 → d3.risk_level = 6 →
       d4.risk_level = 2 → d5.risk_level = 5 →
       (generate_statistics ⟨[d1, d2, d3, d4, d5], recs⟩).high_risk_devices = 3 ∧
       (generate_statistics ⟨[d1, d2, d3, d4, d5], recs⟩).low_risk_devices = 2) := by
  constructor
  · intro rep
    exact ⟨rfl, filter_status_partition rep.devices, rfl, rfl,
      filter_risk_partition rep.devices⟩
  · intro d1 d2 d3 d4 d5 recs h1 h2 h3 h4 h5
    constructor <;>
      simp [generate_statistics, List.filter_cons, h1, h2, h3, h4, h5]

/-- Witness for C7: five concrete constructed devices whose risk levels are
[5,4,6,2,5]. -/
theorem statistics_partition_witness :
    (generate_statistics
        ⟨[IoTDevice.init "d1" "smart_light" "1.0" DeviceStatus.ACTIVE 0 0 0,
          IoTDevice.init "d2" "smart_light" "1.1" DeviceStatus.ACTIVE 0 0 1,
          IoTDevice.init "d3" "security_camera" "1.0" DeviceStatus.INACTIVE 0 0 0,
          IoTDevice.init "d4" "smart_light" "1.2" DeviceStatus.UNDER_MAINTENANCE 0 0 0,
          IoTDevice.init "d5" "door_lock" "1.1" DeviceStatus.ACTIVE 0 0 0],
         []⟩).high_risk_devices = 3 ∧
    (generate_statistics
        ⟨[IoTDevice.init "d1" "smart_light" "1.0" DeviceStatus.ACTIVE 0 0 0,
          IoTDevice.init "d2" "smart_light" "1.1" DeviceStatus.ACTIVE 0 0 1,
          IoTDevice.init "d3" "security_camera" "1.0" DeviceStatus.INACTIVE 0 0 0,
          IoTDevice.init "d4" "smart_light" "1.2" DeviceStatus.UNDER_MAINTENANCE 0 0 0,
          IoTDevice.init "d5" "door_lock" "1.1" DeviceStatus.ACTIVE 0 0 0],
         []⟩).low_risk_devices = 2 :=
  statistics_partition.2
    (IoTDevice.init "d1" "smart_light" "1.0" DeviceStatus.ACTIVE 0 0 0)
    (IoTDevice.init "d2" "smart_light" "1.1" DeviceStatus.ACTIVE 0 0 1)
    (IoTDevice.init "d3" "security_camera" "1.0" DeviceStatus.INACTIVE 0 0 0)
    (IoTDevice.init "d4" "smart_light" "1.2" DeviceStatus.UNDER_MAINTENANCE 0 0 0)
    (IoTDevice.init "d5" "door_lock" "1.1" DeviceStatus.ACTIVE 0 0 0)
    [] (by decide) (by decide) (by decide) (by decide) (by decide)

/-- C8: out-of-range approval is atomic: for every recommendation list and
every 1-based index outside [1, length], the approval loop reports the
validation message and leaves the list unchanged; in particular index 10 on
a 2-item list of fresh recommendations leaves both unapproved. -/
theorem approve_out_of_range :
    (∀ (recs : List Recommendation) (i : Int),
       (i < 1 ∨ i > (recs.length : Int)) →
       approve_index recs i = (recs, "Invalid recommendation index.")) ∧
    (∀ descA descB : String,
       approve_index [Recommendation.new descA, Recommendation.new descB] 10
         = ([Recommendation.new descA, Recommendation.new descB],
            "Invalid recommendation index.") ∧
       (Recommendation.new descA).approved = false ∧
       (Recommendation.new descB).approved = false) := by
  constructor
  · intro recs i h
    have hc : ¬ (0 ≤ i - 1 ∧ i - 1 < (recs.length : Int)) := by omega
    simp only [approve_index]
    rw [if_neg hc]
  · intro descA descB
    refine ⟨?_, rfl, rfl⟩
    have hc : ¬ ((0:Int) ≤ 10 - 1 ∧ (10:Int) - 1 <
        (([Recommendation.new descA, Recommendation.new descB].length : Nat) : Int)) := by
      simp
    simp [approve_index, hc]

/-- Witness for C8 at a concrete 2-item list and index 10. -/
theorem approve_out_of_range_witness :
    approve_index [Recommendation.new "patch", Recommendation.new "reboot"] 10
      = ([Recommendation.new "patch", Recommendation.new "reboot"],
         "Invalid recommendation index.") :=
  approve_out_of_range.1 [Recommendation.new "patch", Recommendation.new "reboot"]
    10 (by right; decide)

/-- C9: approval round-trip: a recommendation added via add_recommendation
starts unapproved; approving at its valid 1-based index yields the list with
exactly that recommendation approved; its rendering then reads Approved and
appears among the lines of view_recommendations; adding devices or further
recommendations leaves its approved flag true; and an explicit reject
returns it to approved=false. -/
theorem recommendation_roundtrip :
    ∀ (rep : DeviceReport) (desc : String),
      (Recommendation.new desc).approved = false ∧
      (approve_index (add_recommendation rep (Recommendation.new desc)).recommendations
          ((rep.recommendations.length : Int) + 1)).1
        = rep.recommendations ++ [Recommendation.mk desc true] ∧
      Recommendation.render (Recommendation.mk desc true)
        = "Recommendation: " ++ desc ++ " - " ++ "Approved" ∧
      ("Recommendation: " ++ desc ++ " - " ++ "Approved")
        ∈ ((rep.recommendations ++ [Recommendation.mk desc true]).map Recommendation.render) ∧
      (∀ dev : IoTDevice,
         (add_device
             { rep with recommendations := rep.recommendations ++ [Recommendation.mk desc true] }
             dev).recommendations
           = rep.recommendations ++ [Recommendation.mk desc true]) ∧
      (∀ r : Recommendation,
         ((add_recommendation
             { rep with recommendations := rep.recommendations ++ [Recommendation.mk desc true] }
             r).recommendations)[rep.recommendations.length]?
           = some (Recommendation.mk desc true)) ∧
      Recommendation.reject (Recommendation.mk desc true) = Recommendation.mk desc false := by
  intro rep desc
  refine ⟨rfl, ?_, rfl, ?_, fun dev => rfl, ?_, rfl⟩
  · have hc : (0:Int) ≤ (rep.recommendations.length : Int) + 1 - 1 ∧
        ((rep.recommendations.length : Int) + 1 - 1 : Int) <
          (((rep.recommendations ++ [Recommendation.new desc]).length : Nat) : Int) := by
      simp
    have hn : (((rep.recommendations.length : Int) + 1 - 1)).toNat
        = rep.recommendations.length := by omega
    simp only [approve_index, add_recommendation]
    rw [if_pos hc, hn, approveNth_append]
    rfl
  · simp [Recommendation.render]
  · intro r
    simp only [add_recommendation]
    exact get_append_middle rep.recommendations [r] (Recommendation.mk desc true)

/-- C10: every constructed device's risk_level is at least the base-table
value for its (type, version) pair and at most that value plus 4, given the
residual drawn from randint(0, 2); and since all configured base values are
non-negative and absent pairs score 0, risk_level is never negative. -/
theorem risk_level_bounds :
    ∀ (id ty fw : String) (st : DeviceStatus) (created age res : Int),
      0 ≤ res → res ≤ 2 →
      baseRisk ty fw ≤ (IoTDevice.init id ty fw st created age res).risk_level ∧
      (IoTDevice.init id ty fw st created age res).risk_level ≤ baseRisk ty fw + 4 ∧
      0 ≤ (IoTDevice.init id ty fw st created age res).risk_level := by
  intro id ty fw st created age res h0 h2
  have hb := baseRisk_nonneg ty fw
  simp only [IoTDevice.init, calculate_risk]
  split <;> refine ⟨by omega, by omega, by omega⟩

/-- Witness for C10 at a concrete device with residual 1. -/
theorem risk_level_bounds_witness :
    baseRisk "smart_light" "1.0"
        ≤ (IoTDevice.init "d9" "smart_light" "1.0" DeviceStatus.ACTIVE 0 0 1).risk_level ∧
    (IoTDevice.init "d9" "smart_light" "1.0" DeviceStatus.ACTIVE 0 0 1).risk_level
        ≤ baseRisk "smart_light" "1.0" + 4 ∧
    0 ≤ (IoTDevice.init "d9" "smart_light" "1.0" DeviceStatus.ACTIVE 0 0 1).risk_level :=
  risk_level_bounds "d9" "smart_light" "1.0" DeviceStatus.ACTIVE 0 0 1
    (by decide) (by decide)

end IoTRisk
